import Mathlib

/-!
Shallow embedding of the URL risk-analysis pipeline of the analyzed
repository (backend/app/services/url_analyzer.py and
backend/app/services/ml_classifier.py).

Conventions of the embedding:
* Python floats are modelled as exact rationals (ℚ); every score the
  claims touch is produced by short chains of +, *, min, max, abs,
  which the code computes directly from decimal literals.
* Python dicts with optional keys are modelled as structures whose
  fields are `Option`-valued when the corresponding key may be absent.
* Calls into external libraries (DNS resolver, whois, aiohttp fetches,
  the idna codec, tldextract, BeautifulSoup) are modelled as explicit
  oracle parameters; an oracle returning `Except.error e` stands for the
  library call raising an exception with message `e`.  The repository's
  own control flow around those calls is embedded faithfully.
-/

/-- Character-list version of `startsWith`, used to model Python's
substring operator `in`. -/
def startsWithChars : List Char → List Char → Bool
  | [], _ => true
  | _ :: _, [] => false
  | a :: as, b :: bs => a == b && startsWithChars as bs

/-- Does `pat` occur as a contiguous substring of the second list? -/
def hasSubChars (pat : List Char) : List Char → Bool
  | [] => startsWithChars pat []
  | b :: bs => startsWithChars pat (b :: bs) || hasSubChars pat bs

/-- Python's `pat in s` on strings: substring containment. -/
def containsSub (s pat : String) : Bool := hasSubChars pat.data s.data

/-- Output dict of `MLClassifier.classify` as consumed by
`_compile_risk_assessment` (keys `classification`, `phishing_score`,
`confidence`). -/
structure MLResult where
  classification : String
  phishing_score : ℚ
  confidence : ℚ
deriving Repr, DecidableEq

/-- The features dict built by `URLAnalyzer._normalize_and_check_url`. -/
structure NormFeatures where
  original_url : String
  domain : String
  subdomain : String
  suffix : String
  is_ip : Bool
  has_punycode : Bool
  url_length : Nat
  path_length : Nat
  query_length : Nat
deriving Repr, DecidableEq

/-- The dict built by `URLAnalyzer._dns_and_whois_lookup`.  A field
equal to `none` models the key being absent from the dict; the doubled
`Option` on `creation_date`/`registrar` models a present key whose
value is Python `None`. -/
structure DnsWhoisData where
  a_records : Option (List String) := none
  dns_error : Option String := none
  creation_date : Option (Option String) := none
  registrar : Option (Option String) := none
  name_servers : Option (List String) := none
  whois_error : Option String := none
  domain_age_days : Option ℚ := none
deriving Repr, DecidableEq

/-- One recorded hop of the redirect chain in
`URLAnalyzer._http_fetch_and_redirects`. -/
structure RedirectHop where
  url : String
  status : Nat
  location : String
deriving Repr, DecidableEq

/-- The dict built by `URLAnalyzer._http_fetch_and_redirects`.  The
payload keys are always present (they are initialized before the try
block); `http_error` is present exactly when a network call raised. -/
structure HttpData where
  redirect_chain : List RedirectHop := []
  final_url : String := ""
  status_code : Option Nat := none
  html_content : String := ""
  http_error : Option String := none
deriving Repr, DecidableEq

/-- The dict built by `URLAnalyzer._tls_cert_analysis` (not read by any
claim's computation, carried for record completeness). -/
structure CertData where
  subject : Option (List (String × String)) := none
  issuer : Option (List (String × String)) := none
  not_before : Option String := none
  not_after : Option String := none
  serial_number : Option String := none
  cert_error : Option String := none
deriving Repr, DecidableEq

/-- The dict built by `URLAnalyzer._url_token_analysis`. -/
structure TokenAnalysis where
  suspicious_keywords : List String := []
  long_hex_tokens : List String := []
  base64_patterns : List String := []
  subdomain_count : Nat := 0
  has_homoglyphs : Bool := false
deriving Repr, DecidableEq

/-- The stub dict returned by `URLAnalyzer._reputation_checks`. -/
structure ReputationData where
  reputation_score : ℚ := 50
deriving Repr, DecidableEq

/-- One input tag of a form, from `_content_analysis`. -/
structure FormInput where
  type : String
  name : String
deriving Repr, DecidableEq

/-- One form record, from `_content_analysis`. -/
structure FormData where
  action : String
  method : String
  inputs : List FormInput
deriving Repr, DecidableEq

/-- The dict returned by `URLAnalyzer._content_analysis`: exactly one of
the three shapes — `content_error` (no HTML), payload, or
`content_analysis_error` (parser raised). `none` models an absent key. -/
structure ContentData where
  content_error : Option String := none
  content_analysis_error : Option String := none
  title : Option String := none
  forms : Option (List FormData) := none
  external_links : Option (List String) := none
  suspicious_elements : Option (List String) := none
  has_login_form : Option Bool := none
deriving Repr, DecidableEq

/-- The dict built by `URLAnalyzer._dynamic_screenshot_analysis`; on
failure `phishing_indicators` is set to the empty list. -/
structure ScreenshotData where
  phishing_indicators : List String := []
  analysis_success : Bool := true
  error : Option String := none
deriving Repr, DecidableEq

/-- The `steps` mapping of the analysis record, one entry per stage. -/
structure AnalysisSteps where
  normalization : NormFeatures
  dns_whois : DnsWhoisData := {}
  tls_cert : CertData := {}
  http_analysis : HttpData := {}
  token_analysis : TokenAnalysis := {}
  reputation : ReputationData := {}
  content_analysis : ContentData := {}
  screenshot_analysis : ScreenshotData := {}
deriving Repr, DecidableEq

/-- The analysis record assembled by `URLAnalyzer.analyze` at the point
where `_compile_risk_assessment` runs. -/
structure AnalysisRecord where
  job_id : String
  url : String
  steps : AnalysisSteps
deriving Repr, DecidableEq

/-- The dict returned by `_compile_risk_assessment`. -/
structure RiskAssessment where
  verdict : String
  confidence : ℚ
  risk_score : ℚ
  evidence : List String
deriving Repr, DecidableEq

/-- Integer rendering of a confidence for the `:.0f` format used in the
classifier evidence strings (exact only away from .5 halves, where
Python rounds half to even; no claim depends on those digits). -/
def fmtConf (c : ℚ) : String := toString (round c)

def evMlPhishing (c : ℚ) : String :=
  "ML classifier detected phishing patterns (confidence: " ++ fmtConf c ++ "%)"

def evMlSuspicious (c : ℚ) : String :=
  "ML classifier flagged as suspicious (confidence: " ++ fmtConf c ++ "%)"

def evIpAddress : String := "URL uses IP address instead of domain name"

def evPunycode : String := "URL contains punycode (internationalized domain)"

def evLongUrl : String := "Unusually long URL"

def evRedirects (n : Nat) : String :=
  "Multiple redirects detected (" ++ toString n ++ " redirects)"

def evLoginForm : String := "Contains login form"

def evKeywords (ks : List String) : String :=
  "Contains suspicious keywords: " ++ String.intercalate ", " ks

/-- Evidence contributed by the classifier branch of
`_compile_risk_assessment` (lines 315-318). -/
def classifierEvidence (m : MLResult) : List String :=
  if m.classification = "phishing" then [evMlPhishing m.confidence]
  else if m.classification = "suspicious" then [evMlSuspicious m.confidence]
  else []

/-- Points a single dynamic-collector indicator adds (the if/elif
substring chain of lines 364-370). -/
def indicatorPoints (ind : String) : ℚ :=
  if containsSub ind "external domain" then 16
  else if containsSub ind "login form" then 12
  else if containsSub ind "external scripts" then 6
  else 0

/-- Verdict from the final risk score (lines 374-379). -/
def verdictOf (s : ℚ) : String :=
  if 70 ≤ s then "dangerous" else if 40 ≤ s then "suspicious" else "safe"

/-- Confidence from the final risk score (line 381). -/
def confidenceOf (s : ℚ) : ℚ := min 95 (max 60 (100 - |s - 50|))

/-- `URLAnalyzer._compile_risk_assessment`, with the classifier's output
factored out as the explicit argument `ml` (the method constructs a
fresh `MLClassifier` and calls `classify`; `ml = none` models that call
raising, in which case the except branch sets `ml_score = 0` and no
classifier evidence is appended). -/
def compile_risk_assessment (ml : Option MLResult) (a : AnalysisRecord) :
    RiskAssessment :=
  let score0 : ℚ := match ml with
    | some m => m.phishing_score * 100 * (6/10)
    | none => 0
  let ev0 : List String := match ml with
    | some m => classifierEvidence m
    | none => []
  let st := a.steps
  let n := st.normalization
  let s1 := score0 + (if n.is_ip then 12 else 0)
  let e1 := ev0 ++ (if n.is_ip then [evIpAddress] else [])
  let s2 := s1 + (if n.has_punycode then 8 else 0)
  let e2 := e1 ++ (if n.has_punycode then [evPunycode] else [])
  let s3 := s2 + (if 100 < n.url_length then 4 else 0)
  let e3 := e2 ++ (if 100 < n.url_length then [evLongUrl] else [])
  let rc := st.http_analysis.redirect_chain.length
  let s4 := s3 + (if 2 < rc then 6 * (rc : ℚ) else 0)
  let e4 := e3 ++ (if 2 < rc then [evRedirects rc] else [])
  let login := st.content_analysis.has_login_form.getD false
  let s5 := s4 + (if login then 10 else 0)
  let e5 := e4 ++ (if login then [evLoginForm] else [])
  let kws := st.token_analysis.suspicious_keywords
  let s6 := s5 + (if 0 < kws.length then 4 * (kws.length : ℚ) else 0)
  let e6 := e5 ++ (if 0 < kws.length then [evKeywords kws] else [])
  let inds := st.screenshot_analysis.phishing_indicators
  let s7 := s6 + (inds.map indicatorPoints).sum
  let e7 := e6 ++ inds
  { verdict := verdictOf s7
    confidence := confidenceOf s7
    risk_score := s7
    evidence := e7.take 6 }

/-- The sum of the rule-based contributions of `_compile_risk_assessment`
(everything except the classifier's 60% share), written as the flat sum
the spec states. -/
def ruleContributions (a : AnalysisRecord) : ℚ :=
  (if a.steps.normalization.is_ip then 12 else 0)
  + (if a.steps.normalization.has_punycode then 8 else 0)
  + (if 100 < a.steps.normalization.url_length then 4 else 0)
  + (if 2 < a.steps.http_analysis.redirect_chain.length then
      6 * (a.steps.http_analysis.redirect_chain.length : ℚ) else 0)
  + (if a.steps.content_analysis.has_login_form.getD false then 10 else 0)
  + 4 * (a.steps.token_analysis.suspicious_keywords.length : ℚ)
  + ((a.steps.screenshot_analysis.phishing_indicators.map indicatorPoints).sum)

/-- The full evidence list accumulated by `_compile_risk_assessment`
before the final `[:6]` truncation. -/
def fullEvidence (ml : Option MLResult) (a : AnalysisRecord) : List String :=
  (match ml with | some m => classifierEvidence m | none => [])
  ++ (if a.steps.normalization.is_ip then [evIpAddress] else [])
  ++ (if a.steps.normalization.has_punycode then [evPunycode] else [])
  ++ (if 100 < a.steps.normalization.url_length then [evLongUrl] else [])
  ++ (if 2 < a.steps.http_analysis.redirect_chain.length then
        [evRedirects a.steps.http_analysis.redirect_chain.length] else [])
  ++ (if a.steps.content_analysis.has_login_form.getD false then [evLoginForm] else [])
  ++ (if 0 < a.steps.token_analysis.suspicious_keywords.length then
        [evKeywords a.steps.token_analysis.suspicious_keywords] else [])
  ++ a.steps.screenshot_analysis.phishing_indicators

/-- The classification dict built by `MLClassifier.classify` from the
two component scores (lines 162-182); `url_score` comes from the fitted
model's `predict_proba`, `text_score` from `_analyze_text_content`. -/
structure ClassificationResult where
  classification : String
  phishing_score : ℚ
  confidence : ℚ
  url_score : ℚ
  text_score : ℚ
deriving Repr, DecidableEq

/-- Score combination and thresholding of `MLClassifier.classify`. -/
def classifyCombine (url_score text_score : ℚ) : ClassificationResult :=
  let combined := url_score * (7/10) + text_score * (3/10)
  if (7/10 : ℚ) ≤ combined then
    ⟨"phishing", combined, min 95 (combined * 100), url_score, text_score⟩
  else if (4/10 : ℚ) ≤ combined then
    ⟨"suspicious", combined, min 85 (combined * 100), url_score, text_score⟩
  else
    ⟨"legitimate", combined, min 90 ((1 - combined) * 100), url_score, text_score⟩

/-! ### Sample records used by witnesses and counterexamples -/

def sampleNorm0 : NormFeatures :=
  { original_url := "https://example.com", domain := "example", subdomain := "",
    suffix := "com", is_ip := false, has_punycode := false,
    url_length := 19, path_length := 0, query_length := 0 }

def sampleRecord0 : AnalysisRecord :=
  { job_id := "job-1", url := "https://example.com",
    steps := { normalization := sampleNorm0 } }

def sampleRecord0b : AnalysisRecord :=
  { sampleRecord0 with job_id := "job-2", url := "https://other.example" }

def sampleNorm8 : NormFeatures :=
  { original_url := "https://203.0.113.9/a", domain := "203.0.113.9", subdomain := "",
    suffix := "", is_ip := true, has_punycode := true,
    url_length := 150, path_length := 2, query_length := 0 }

/-- A record triggering eight distinct evidence appends. -/
def sampleRecord8 : AnalysisRecord :=
  { job_id := "job-8", url := "https://203.0.113.9/a",
    steps := { normalization := sampleNorm8,
               http_analysis :=
                 { redirect_chain := [⟨"a", 301, "b"⟩, ⟨"b", 302, "c"⟩, ⟨"c", 303, "d"⟩],
                   final_url := "d", status_code := some 200 },
               content_analysis :=
                 { title := some "t", forms := some [], has_login_form := some true },
               token_analysis := { suspicious_keywords := ["login"] },
               screenshot_analysis :=
                 { phishing_indicators :=
                     ["Form posts to external domain",
                      "Contains login form with email/password fields"] } } }

def mlLow : MLResult := ⟨"legitimate", 0, 80⟩

def mlHigh : MLResult := ⟨"phishing", 1, 95⟩

/-! ### Helper lemmas about the risk compiler -/

lemma keyword_if_eq (k : Nat) : (if 0 < k then 4 * (k : ℚ) else 0) = 4 * (k : ℚ) := by
  rcases Nat.eq_zero_or_pos k with h | h
  · simp [h]
  · simp [h]

lemma compile_score_eq (m : MLResult) (a : AnalysisRecord) :
    (compile_risk_assessment (some m) a).risk_score
      = m.phishing_score * 100 * (6/10) + ruleContributions a := by
  simp only [compile_risk_assessment, ruleContributions]
  rw [keyword_if_eq a.steps.token_analysis.suspicious_keywords.length]
  ring

lemma compile_evidence_eq (ml : Option MLResult) (a : AnalysisRecord) :
    (compile_risk_assessment ml a).evidence = (fullEvidence ml a).take 6 := by
  cases ml <;>
    simp [compile_risk_assessment, fullEvidence, List.append_assoc]

/-! ### Claim theorems -/

/-- C4: the verdict of every compiled risk assessment is exactly
"dangerous" when risk_score ≥ 70, "suspicious" when 40 ≤ risk_score < 70
and "safe" when risk_score < 40, both lower bounds inclusive
(69.9 → suspicious, 70 → dangerous, 39.9 → safe, 40 → suspicious). -/
theorem c4_verdict_thresholds :
    (∀ ml a, (compile_risk_assessment ml a).verdict
        = verdictOf (compile_risk_assessment ml a).risk_score) ∧
    (∀ s : ℚ, (verdictOf s = "dangerous" ↔ 70 ≤ s) ∧
      (verdictOf s = "suspicious" ↔ 40 ≤ s ∧ s < 70) ∧
      (verdictOf s = "safe" ↔ s < 40)) ∧
    verdictOf (699/10) = "suspicious" ∧ verdictOf 70 = "dangerous" ∧
    verdictOf (399/10) = "safe" ∧ verdictOf 40 = "suspicious" := by
  refine ⟨fun ml a => rfl, fun s => ?_, by norm_num [verdictOf],
    by norm_num [verdictOf], by norm_num [verdictOf], by norm_num [verdictOf]⟩
  unfold verdictOf
  split_ifs with h1 h2
  · exact ⟨iff_of_true rfl h1,
      iff_of_false (by decide) (fun h => absurd h1 (not_le.mpr h.2)),
      iff_of_false (by decide) (fun h => absurd h1 (not_le.mpr (by linarith)))⟩
  · exact ⟨iff_of_false (by decide) h1,
      iff_of_true rfl ⟨h2, lt_of_not_le h1⟩,
      iff_of_false (by decide) (fun h => absurd h2 (not_le.mpr h))⟩
  · exact ⟨iff_of_false (by decide) h1,
      iff_of_false (by decide) (fun h => absurd h.1 h2),
      iff_of_true rfl (lt_of_not_le h2)⟩

theorem c4_verdict_thresholds_witness :
    verdictOf 70 = "dangerous" ∧ verdictOf (699/10) = "suspicious" :=
  ⟨c4_verdict_thresholds.2.2.2.1, c4_verdict_thresholds.2.2.1⟩

/-- C5: the compiled risk_score equals the classifier percentage times
0.6 plus the flat sum of the fixed rule contributions (+12 IP host,
+8 punycode, +4 long URL, +6 per hop when hops > 2, +10 login form,
+4 per suspicious keyword, and the substring-matched dynamic-indicator
points), and the evidence list is exactly the per-rule strings appended
in evaluation order (truncated to 6). -/
theorem c5_risk_score_formula (m : MLResult) (a : AnalysisRecord) :
    (compile_risk_assessment (some m) a).risk_score
      = m.phishing_score * 100 * (6/10) + ruleContributions a ∧
    (compile_risk_assessment (some m) a).evidence
      = (fullEvidence (some m) a).take 6 :=
  ⟨compile_score_eq m a, compile_evidence_eq (some m) a⟩

/-- C6: the exposed evidence is always the first six appended entries in
insertion order; when six or fewer were appended, all of them are
exposed. -/
theorem c6_evidence_cap (ml : Option MLResult) (a : AnalysisRecord) :
    (compile_risk_assessment ml a).evidence = (fullEvidence ml a).take 6 ∧
    (compile_risk_assessment ml a).evidence.length ≤ 6 ∧
    ((fullEvidence ml a).length ≤ 6 →
      (compile_risk_assessment ml a).evidence = fullEvidence ml a) := by
  refine ⟨compile_evidence_eq ml a, ?_, ?_⟩
  · rw [compile_evidence_eq ml a, List.length_take]
    exact min_le_left _ _
  · intro h
    rw [compile_evidence_eq ml a, List.take_of_length_le h]

theorem c6_evidence_cap_witness :
    ((fullEvidence none sampleRecord8).length = 8 ∧
      (compile_risk_assessment none sampleRecord8).evidence
        = (fullEvidence none sampleRecord8).take 6) ∧
    (compile_risk_assessment none sampleRecord0).evidence
      = fullEvidence none sampleRecord0 :=
  ⟨⟨by decide, (c6_evidence_cap none sampleRecord8).1⟩,
    (c6_evidence_cap none sampleRecord0).2.2 (by decide)⟩

/-- C2 counterexample: with identical StepResults, two admissible
classifier outcomes (the classifier is rebuilt per call on unseeded
random calibration data) yield different risk assessments, so the
compiled assessment is not a function of the StepResults alone. -/
theorem c2_counterexample_not_steps_determined :
    compile_risk_assessment (some mlLow) sampleRecord0
      ≠ compile_risk_assessment (some mlHigh) sampleRecord0 := by
  intro h
  have hs := congrArg RiskAssessment.risk_score h
  rw [compile_score_eq, compile_score_eq] at hs
  simp only [mlLow, mlHigh] at hs
  norm_num at hs

/-- C2 (amended): holding the classifier output fixed, the compiled
assessment is a pure function of the step fields the compiler reads —
any two analysis records agreeing on those fields (whatever their job
id, URL, or other stage data) compile to the same assessment. -/
theorem c2_compile_determinism (ml : Option MLResult) (a b : AnalysisRecord)
    (h1 : a.steps.normalization.is_ip = b.steps.normalization.is_ip)
    (h2 : a.steps.normalization.has_punycode = b.steps.normalization.has_punycode)
    (h3 : a.steps.normalization.url_length = b.steps.normalization.url_length)
    (h4 : a.steps.http_analysis.redirect_chain = b.steps.http_analysis.redirect_chain)
    (h5 : a.steps.content_analysis.has_login_form = b.steps.content_analysis.has_login_form)
    (h6 : a.steps.token_analysis.suspicious_keywords
        = b.steps.token_analysis.suspicious_keywords)
    (h7 : a.steps.screenshot_analysis.phishing_indicators
        = b.steps.screenshot_analysis.phishing_indicators) :
    compile_risk_assessment ml a = compile_risk_assessment ml b := by
  simp only [compile_risk_assessment, h1, h2, h3, h4, h5, h6, h7]

theorem c2_compile_determinism_witness :
    compile_risk_assessment none sampleRecord0
      = compile_risk_assessment none sampleRecord0b :=
  c2_compile_determinism none sampleRecord0 sampleRecord0b rfl rfl rfl rfl rfl rfl rfl

/-- C7: the classifier's combined score is 0.7·url_score + 0.3·text_score,
classified phishing (confidence min(95, 100·score)) at ≥ 0.7, suspicious
(min(85, 100·score)) at ≥ 0.4, legitimate (min(90, 100·(1−score)))
below. -/
theorem c7_classifier_combination (u t : ℚ)
    (hu0 : 0 ≤ u) (hu1 : u ≤ 1) (ht0 : 0 ≤ t) (ht1 : t ≤ 1) :
    (classifyCombine u t).phishing_score = (7/10) * u + (3/10) * t ∧
    ((7/10 : ℚ) ≤ (7/10) * u + (3/10) * t →
      (classifyCombine u t).classification = "phishing" ∧
      (classifyCombine u t).confidence
        = min 95 (((7/10) * u + (3/10) * t) * 100)) ∧
    ((4/10 : ℚ) ≤ (7/10) * u + (3/10) * t → (7/10) * u + (3/10) * t < 7/10 →
      (classifyCombine u t).classification = "suspicious" ∧
      (classifyCombine u t).confidence
        = min 85 (((7/10) * u + (3/10) * t) * 100)) ∧
    ((7/10) * u + (3/10) * t < 4/10 →
      (classifyCombine u t).classification = "legitimate" ∧
      (classifyCombine u t).confidence
        = min 90 ((1 - ((7/10) * u + (3/10) * t)) * 100)) := by
  have hc : u * (7/10) + t * (3/10) = (7/10) * u + (3/10) * t := by ring
  simp only [classifyCombine]
  rw [hc]
  split_ifs with h1 h2
  · refine ⟨rfl, fun _ => ⟨rfl, rfl⟩, fun _ h7 => ?_, fun h4 => ?_⟩
    · exact absurd h1 (not_le.mpr h7)
    · exact absurd h1 (not_le.mpr (by linarith))
  · refine ⟨rfl, fun h7 => absurd h7 h1, fun _ _ => ⟨rfl, rfl⟩, fun h4 => ?_⟩
    exact absurd h2 (not_le.mpr h4)
  · refine ⟨rfl, fun h7 => absurd h7 h1, fun h4 _ => absurd h4 h2,
      fun _ => ⟨rfl, rfl⟩⟩

theorem c7_classifier_combination_witness :
    ((0:ℚ) ≤ 8/10 ∧ (8/10:ℚ) ≤ 1 ∧ (0:ℚ) ≤ 5/10 ∧ (5/10:ℚ) ≤ 1) ∧
    (classifyCombine (8/10) (5/10)).phishing_score = 71/100 ∧
    (classifyCombine (8/10) (5/10)).classification = "phishing" ∧
    (classifyCombine (8/10) (5/10)).confidence = 71 := by
  have h := c7_classifier_combination (8/10) (5/10)
    (by norm_num) (by norm_num) (by norm_num) (by norm_num)
  have h2 := h.2.1 (by norm_num)
  refine ⟨by norm_num, ?_, h2.1, ?_⟩
  · rw [h.1]; norm_num
  · rw [h2.2]; norm_num [min_def]

/-! ### HTTP fetch and redirect tracing (`_http_fetch_and_redirects`) -/

/-- One HTTP response as seen by the tracing loop: its status, its
`Location` header (if any) and the outcome of reading its body —
`await response.text()` (line 203) is itself a network operation that
can raise after the status is known, so the body is `Except`-valued. -/
structure HttpResponse where
  status : Nat
  location : Option String
  body : Except String String
deriving Repr

/-- `response.status in (301, 302, 303, 307, 308)` (line 182). -/
def isRedirectStatus (s : Nat) : Bool :=
  s == 301 || s == 302 || s == 303 || s == 307 || s == 308

/-- Python's falsy test `if not location` (line 184): true when the
`Location` header is absent or is the empty string. -/
def locationFalsy : Option String → Bool
  | none => true
  | some s => s == ""

/-- Outcome of the while loop: either it finished with the current
response, or a refetch raised (the `Except.error` oracle case) with the
hops recorded so far. -/
inductive LoopResult where
  | done (chain : List RedirectHop) (finalUrl : String) (resp : HttpResponse)
  | failed (chain : List RedirectHop) (err : String)
deriving Repr

/-- The while loop of lines 182-196.  `fuel = 5 - redirect_count`, so
the `redirect_count < 5` conjunct of the loop condition is `0 < fuel`;
`if not location: break` stops on a missing or empty header; the
successive `session.get` results are consumed from `rest`. -/
def redirectLoop (urljoin : String → String → String) :
    Nat → String → HttpResponse → List (Except String HttpResponse) →
    List RedirectHop → LoopResult
  | 0, cu, resp, _, chain => .done chain cu resp
  | fuel+1, cu, resp, rest, chain =>
    if isRedirectStatus resp.status then
      if locationFalsy resp.location then .done chain cu resp
      else
        let loc := resp.location.getD ""
        let chain2 := chain ++ [⟨cu, resp.status, loc⟩]
        let nextUrl := urljoin cu loc
        match rest with
        | [] => .failed chain2 "connection error"
        | .error e :: _ => .failed chain2 e
        | .ok r :: rs => redirectLoop urljoin fuel nextUrl r rs chain2
    else .done chain cu resp

/-- `URLAnalyzer._http_fetch_and_redirects`; `urljoin` is the
`urllib.parse.urljoin` oracle and `responses` the stream of results of
the successive `session.get` calls (an `Except.error` models the call
raising).  On a fetch exception the dict keeps its initialized payload
(`final_url` is still the input URL, `status_code` still `None`) plus
the recorded hops, and gains `http_error`.  After the loop,
`final_url`/`status_code` are assigned (lines 198-199) before the body
read of a 200 response (line 203); if that read raises, the except
branch (line 206) leaves them in place, so the dict then carries
`status_code` together with `http_error`. -/
def http_fetch_and_redirects (urljoin : String → String → String)
    (responses : List (Except String HttpResponse)) (url : String) : HttpData :=
  match responses with
  | [] =>
    { redirect_chain := [], final_url := url, status_code := none,
      html_content := "", http_error := some "connection error" }
  | .error e :: _ =>
    { redirect_chain := [], final_url := url, status_code := none,
      html_content := "", http_error := some e }
  | .ok r0 :: rest =>
    match redirectLoop urljoin 5 url r0 rest [] with
    | .failed chain e =>
      { redirect_chain := chain, final_url := url, status_code := none,
        html_content := "", http_error := some e }
    | .done chain finalUrl resp =>
      if resp.status == 200 then
        match resp.body with
        | .ok text =>
          { redirect_chain := chain, final_url := finalUrl,
            status_code := some resp.status, html_content := text,
            http_error := none }
        | .error e =>
          { redirect_chain := chain, final_url := finalUrl,
            status_code := some resp.status, html_content := "",
            http_error := some e }
      else
        { redirect_chain := chain, final_url := finalUrl,
          status_code := some resp.status, html_content := "",
          http_error := none }

/-- The hops the loop records when walking the given redirect responses
starting from `cu`. -/
def hopsOf (urljoin : String → String → String) :
    String → List HttpResponse → List RedirectHop
  | _, [] => []
  | cu, r :: rs =>
    let loc := r.location.getD ""
    ⟨cu, r.status, loc⟩ :: hopsOf urljoin (urljoin cu loc) rs

/-- The URL reached after resolving each `Location` header in turn. -/
def joinAll (urljoin : String → String → String) :
    String → List HttpResponse → String
  | cu, [] => cu
  | cu, r :: rs => joinAll urljoin (urljoin cu (r.location.getD "")) rs

/-- A response that keeps the loop going: redirect status and a truthy
(present and non-empty) `Location` header. -/
def goodRedirect (r : HttpResponse) : Prop :=
  isRedirectStatus r.status = true ∧ locationFalsy r.location = false

lemma locationFalsy_eq_false {o : Option String}
    (h : locationFalsy o = false) : ∃ loc, o = some loc ∧ loc ≠ "" := by
  cases o with
  | none => simp [locationFalsy] at h
  | some s =>
    refine ⟨s, rfl, ?_⟩
    simpa [locationFalsy] using h

lemma hopsOf_length (urljoin : String → String → String) :
    ∀ (rs : List HttpResponse) (cu : String),
      (hopsOf urljoin cu rs).length = rs.length := by
  intro rs
  induction rs with
  | nil => intro cu; rfl
  | cons r rs ih => intro cu; simp [hopsOf, ih]

/-- One iteration of the loop on a continuing redirect. -/
lemma redirectLoop_step (urljoin : String → String → String)
    (f : Nat) (cu : String) (r0 : HttpResponse) (loc : String)
    (next : HttpResponse) (rest : List (Except String HttpResponse))
    (chain : List RedirectHop)
    (hst : isRedirectStatus r0.status = true)
    (hl : r0.location = some loc) (hne : loc ≠ "") :
    redirectLoop urljoin (f + 1) cu r0 (.ok next :: rest) chain
      = redirectLoop urljoin f (urljoin cu loc) next rest
          (chain ++ [{ url := cu, status := r0.status, location := loc }]) := by
  simp [redirectLoop, hst, hl, locationFalsy, hne]

lemma redirectLoop_stop_falsy_location (urljoin : String → String → String)
    (fuel : Nat) (cu : String) (r0 : HttpResponse)
    (rest : List (Except String HttpResponse)) (chain : List RedirectHop)
    (hloc : locationFalsy r0.location = true) :
    redirectLoop urljoin fuel cu r0 rest chain = .done chain cu r0 := by
  match fuel with
  | 0 => rfl
  | f + 1 =>
    by_cases hst : isRedirectStatus r0.status
    · simp [redirectLoop, hst, hloc]
    · simp [redirectLoop, hst]

lemma redirectLoop_stop_nonredirect (urljoin : String → String → String)
    (fuel : Nat) (cu : String) (r0 : HttpResponse)
    (rest : List (Except String HttpResponse)) (chain : List RedirectHop)
    (hst : isRedirectStatus r0.status = false) :
    redirectLoop urljoin fuel cu r0 rest chain = .done chain cu r0 := by
  match fuel with
  | 0 => rfl
  | f + 1 => simp [redirectLoop, hst]

lemma redirectLoop_done (urljoin : String → String → String) :
    ∀ (rs : List HttpResponse) (fuel : Nat) (cu : String) (r0 : HttpResponse)
      (final : HttpResponse) (rest2 : List (Except String HttpResponse))
      (chain : List RedirectHop),
    (∀ r ∈ r0 :: rs, goodRedirect r) →
    isRedirectStatus final.status = false →
    rs.length + 1 ≤ fuel →
    redirectLoop urljoin fuel cu r0 (rs.map .ok ++ .ok final :: rest2) chain
      = .done (chain ++ hopsOf urljoin cu (r0 :: rs))
          (joinAll urljoin cu (r0 :: rs)) final := by
  intro rs
  induction rs with
  | nil =>
    intro fuel cu r0 final rest2 chain hred hfin hle
    obtain ⟨hst, hloc⟩ := hred r0 (List.mem_cons_self r0 [])
    obtain ⟨loc, hl, hne⟩ := locationFalsy_eq_false hloc
    cases fuel with
    | zero => omega
    | succ f =>
      simp only [List.map_nil, List.nil_append]
      rw [redirectLoop_step urljoin f cu r0 loc final rest2 chain hst hl hne,
        redirectLoop_stop_nonredirect urljoin f (urljoin cu loc) final rest2 _ hfin]
      simp [hopsOf, joinAll, hl]
  | cons r1 rs ih =>
    intro fuel cu r0 final rest2 chain hred hfin hle
    obtain ⟨hst, hloc⟩ := hred r0 (List.mem_cons_self r0 _)
    obtain ⟨loc, hl, hne⟩ := locationFalsy_eq_false hloc
    cases fuel with
    | zero => omega
    | succ f =>
      simp only [List.map_cons, List.cons_append]
      rw [redirectLoop_step urljoin f cu r0 loc r1
        (List.map Except.ok rs ++ Except.ok final :: rest2) chain hst hl hne]
      have hrec := ih f (urljoin cu loc) r1 final rest2
        (chain ++ [{ url := cu, status := r0.status, location := loc }])
        (fun r hr => hred r (List.mem_cons_of_mem r0 hr))
        hfin (by simp at hle; omega)
      rw [hrec]
      simp [hopsOf, joinAll, hl]

lemma redirectLoop_cap (urljoin : String → String → String) :
    ∀ (fuel : Nat) (rs : List HttpResponse) (cu : String) (r0 : HttpResponse)
      (rest2 : List (Except String HttpResponse)) (chain : List RedirectHop)
      (hred : ∀ r ∈ r0 :: rs, goodRedirect r)
      (hle : fuel ≤ rs.length),
    redirectLoop urljoin fuel cu r0 (rs.map .ok ++ rest2) chain
      = .done (chain ++ hopsOf urljoin cu ((r0 :: rs).take fuel))
          (joinAll urljoin cu ((r0 :: rs).take fuel))
          ((r0 :: rs).get ⟨fuel, Nat.lt_succ_of_le hle⟩) := by
  intro fuel
  induction fuel with
  | zero =>
    intro rs cu r0 rest2 chain hred hle
    simp [redirectLoop, hopsOf, joinAll]
  | succ f ih =>
    intro rs cu r0 rest2 chain hred hle
    cases rs with
    | nil => simp at hle
    | cons r1 rs' =>
      obtain ⟨hst, hloc⟩ := hred r0 (List.mem_cons_self r0 _)
      obtain ⟨loc, hl, hne⟩ := locationFalsy_eq_false hloc
      simp only [List.map_cons, List.cons_append]
      rw [redirectLoop_step urljoin f cu r0 loc r1
        (List.map Except.ok rs' ++ rest2) chain hst hl hne]
      have hrec := ih rs' (urljoin cu loc) r1 rest2
        (chain ++ [{ url := cu, status := r0.status, location := loc }])
        (fun r hr => hred r (List.mem_cons_of_mem r0 hr))
        (by simp at hle; omega)
      rw [hrec]
      simp [hopsOf, joinAll, hl]

/-- Projections of the result dict when the loop finished without a
fetch exception (lines 198-204: `final_url`, `status_code`, headers are
assigned, then the body of a 200 response is read, which may itself
raise into the except branch). -/
lemma http_done_proj (urljoin : String → String → String)
    (url : String) (r0 : HttpResponse)
    (rest : List (Except String HttpResponse))
    (chain : List RedirectHop) (finalUrl : String) (resp : HttpResponse)
    (hloop : redirectLoop urljoin 5 url r0 rest [] = .done chain finalUrl resp) :
    (http_fetch_and_redirects urljoin (.ok r0 :: rest) url).redirect_chain = chain ∧
    (http_fetch_and_redirects urljoin (.ok r0 :: rest) url).final_url = finalUrl ∧
    (http_fetch_and_redirects urljoin (.ok r0 :: rest) url).status_code
      = some resp.status ∧
    (http_fetch_and_redirects urljoin (.ok r0 :: rest) url).http_error
      = (if resp.status == 200 then
          match resp.body with | .ok _ => none | .error e => some e
         else none) ∧
    (http_fetch_and_redirects urljoin (.ok r0 :: rest) url).html_content
      = (if resp.status == 200 then
          match resp.body with | .ok t => t | .error _ => ""
         else "") := by
  simp only [http_fetch_and_redirects]
  rw [hloop]
  by_cases h200 : resp.status == 200
  · cases hb : resp.body <;> simp [h200, hb]
  · simp [h200]

/-- C3: for a response sequence of N redirect responses (status in
{301,302,303,307,308}, each with a usable Location header — the code's
`if not location: break` treats an empty header like a missing one)
followed by a 200 response, tracing records exactly N hops when N ≤ 5,
with final_url/status_code reflecting the terminal response and
html_content its body when the body read succeeds; when N ≥ 6 it stops
after exactly 5 recorded hops and reports the sixth redirect's status;
tracing also stops immediately on a missing or empty Location header or
a non-redirect status. -/
theorem c3_redirect_tracing (urljoin : String → String → String)
    (url : String) (redirs : List HttpResponse) (final : HttpResponse)
    (rest2 : List (Except String HttpResponse))
    (hred : ∀ r ∈ redirs, goodRedirect r)
    (hfin : final.status = 200) :
    (redirs.length ≤ 5 →
      (http_fetch_and_redirects urljoin (redirs.map .ok ++ .ok final :: rest2)
          url).redirect_chain.length = redirs.length ∧
      (http_fetch_and_redirects urljoin (redirs.map .ok ++ .ok final :: rest2)
          url).status_code = some 200 ∧
      (http_fetch_and_redirects urljoin (redirs.map .ok ++ .ok final :: rest2)
          url).final_url = joinAll urljoin url redirs ∧
      (∀ b, final.body = .ok b →
        (http_fetch_and_redirects urljoin (redirs.map .ok ++ .ok final :: rest2)
            url).html_content = b)) ∧
    (∀ h6 : 6 ≤ redirs.length,
      (http_fetch_and_redirects urljoin (redirs.map .ok ++ .ok final :: rest2)
          url).redirect_chain.length = 5 ∧
      (http_fetch_and_redirects urljoin (redirs.map .ok ++ .ok final :: rest2)
          url).status_code = some ((redirs.get ⟨5, by omega⟩).status)) ∧
    (∀ r0 rest, isRedirectStatus r0.status = true →
      locationFalsy r0.location = true →
      (http_fetch_and_redirects urljoin (.ok r0 :: rest) url).redirect_chain = []
        ∧ (http_fetch_and_redirects urljoin (.ok r0 :: rest) url).status_code
            = some r0.status) ∧
    (∀ r0 rest, isRedirectStatus r0.status = false →
      (http_fetch_and_redirects urljoin (.ok r0 :: rest) url).redirect_chain = []
        ∧ (http_fetch_and_redirects urljoin (.ok r0 :: rest) url).status_code
            = some r0.status) := by
  have hfin' : isRedirectStatus final.status = false := by rw [hfin]; decide
  refine ⟨?_, ?_, ?_, ?_⟩
  · intro h5
    cases redirs with
    | nil =>
      have hstop := redirectLoop_stop_nonredirect urljoin 5 url final rest2 [] hfin'
      obtain ⟨hc, hf, hs, he, hh⟩ := http_done_proj urljoin url final rest2
        [] url final hstop
      simp only [List.map_nil, List.nil_append] at hc hf hs he hh ⊢
      refine ⟨by rw [hc]; rfl, by rw [hs, hfin], by rw [hf]; rfl, ?_⟩
      intro b hb
      rw [hh]
      simp [hfin, hb]
    | cons r0 rs =>
      have hloop := redirectLoop_done urljoin rs 5 url r0 final rest2 []
        (fun r hr => hred r hr) hfin' (by simp at h5; omega)
      obtain ⟨hc, hf, hs, he, hh⟩ := http_done_proj urljoin url r0
        (List.map Except.ok rs ++ Except.ok final :: rest2)
        ([] ++ hopsOf urljoin url (r0 :: rs))
        (joinAll urljoin url (r0 :: rs)) final hloop
      simp only [List.map_cons, List.cons_append] at hc hf hs he hh ⊢
      refine ⟨?_, by rw [hs, hfin], by rw [hf], ?_⟩
      · rw [hc]
        simp [hopsOf_length]
      · intro b hb
        rw [hh]
        simp [hfin, hb]
  · intro h6
    cases redirs with
    | nil => simp at h6
    | cons r0 rs =>
      have hle5 : 5 ≤ rs.length := by simp at h6; omega
      have hcap := redirectLoop_cap urljoin 5 rs url r0 (.ok final :: rest2) []
        (fun r hr => hred r hr) hle5
      obtain ⟨hc, hf, hs, he, hh⟩ := http_done_proj urljoin url r0
        (List.map Except.ok rs ++ Except.ok final :: rest2)
        ([] ++ hopsOf urljoin url ((r0 :: rs).take 5))
        (joinAll urljoin url ((r0 :: rs).take 5))
        ((r0 :: rs).get ⟨5, Nat.lt_succ_of_le hle5⟩) hcap
      simp only [List.map_cons, List.cons_append] at hc hf hs he hh ⊢
      constructor
      · rw [hc]
        simp only [List.nil_append, hopsOf_length, List.length_take,
          List.length_cons]
        simp at h6
        omega
      · rw [hs]
  · intro r0 rest hst hloc
    have hstop := redirectLoop_stop_falsy_location urljoin 5 url r0 rest [] hloc
    obtain ⟨hc, hf, hs, he, hh⟩ := http_done_proj urljoin url r0 rest [] url r0 hstop
    exact ⟨hc, hs⟩
  · intro r0 rest hst
    have hstop := redirectLoop_stop_nonredirect urljoin 5 url r0 rest [] hst
    obtain ⟨hc, hf, hs, he, hh⟩ := http_done_proj urljoin url r0 rest [] url r0 hstop
    exact ⟨hc, hs⟩

def wjoin : String → String → String := fun _ loc => loc

def wredir (l : String) : HttpResponse := ⟨301, some l, .ok ""⟩

def wfinal : HttpResponse := ⟨200, none, .ok "ok page"⟩

theorem c3_redirect_tracing_witness :
    (http_fetch_and_redirects wjoin
        ([wredir "a", wredir "b", wredir "c"].map .ok ++ .ok wfinal :: [])
        "u").redirect_chain.length = 3 ∧
    (http_fetch_and_redirects wjoin
        ([wredir "a", wredir "b", wredir "c"].map .ok ++ .ok wfinal :: [])
        "u").status_code = some 200 ∧
    (http_fetch_and_redirects wjoin
        ([wredir "a", wredir "b", wredir "c"].map .ok ++ .ok wfinal :: [])
        "u").html_content = "ok page" := by
  have h := c3_redirect_tracing wjoin "u" [wredir "a", wredir "b", wredir "c"]
    wfinal []
    (by
      intro r hr
      simp only [List.mem_cons, List.not_mem_nil, or_false] at hr
      rcases hr with rfl | rfl | rfl <;> exact ⟨by decide, by decide⟩)
    rfl
  have h2 := h.1 (by decide)
  exact ⟨h2.1, h2.2.1, h2.2.2.2 "ok page" rfl⟩

/-! ### DNS/WHOIS lookup (`_dns_and_whois_lookup`) and content analysis
(`_content_analysis`) -/

/-- The object returned by the `whois.whois` oracle on success;
`none` models a falsy attribute (Python `None`). -/
structure WhoisRecord where
  creation_date : Option String
  registrar : Option String
  name_servers : List String
deriving Repr, DecidableEq

/-- `URLAnalyzer._dns_and_whois_lookup`: two independent try/except
blocks fill one shared dict.  `dnsResolve` models
`dns.resolver.resolve(domain, 'A')`, `whoisLookup` models
`whois.whois(domain)`, and `registeredDomain` models
`tldextract.extract(urlparse(url).netloc).registered_domain` (the input
URL was already parsed successfully by the normalization stage, so the
repeated parse cannot raise here). -/
def dns_and_whois_lookup
    (dnsResolve : String → Except String (List String))
    (whoisLookup : String → Except String WhoisRecord)
    (registeredDomain : String → String)
    (url : String) : DnsWhoisData :=
  let domain := registeredDomain url
  let d1 : DnsWhoisData :=
    match dnsResolve domain with
    | .ok rs => { a_records := some rs }
    | .error e => { dns_error := some e }
  match whoisLookup domain with
  | .ok w =>
    { d1 with creation_date := some w.creation_date,
              registrar := some w.registrar,
              name_servers := some w.name_servers }
  | .error e => { d1 with whois_error := some e }

/-- A raw `<input>` tag as delivered by the BeautifulSoup oracle
(`none` models a missing attribute). -/
structure RawInput where
  type : Option String
  name : Option String
deriving Repr, DecidableEq

/-- A raw `<form>` tag as delivered by the BeautifulSoup oracle. -/
structure RawForm where
  action : Option String
  method : Option String
  inputs : List RawInput
deriving Repr, DecidableEq

/-- The parsed soup as delivered by the BeautifulSoup oracle:
the `<title>` string (if a title tag exists) and the `<form>` tags. -/
structure Soup where
  title : Option String
  forms : List RawForm
deriving Repr, DecidableEq

/-- `URLAnalyzer._content_analysis`: empty HTML yields the
`content_error` dict, a parser exception the `content_analysis_error`
dict, otherwise the payload dict with the form summaries and the
`has_login_form` heuristic. -/
def content_analysis (soupParse : String → Except String Soup)
    (html_content : String) : ContentData :=
  if html_content = "" then { content_error := some "No HTML content available" }
  else
    match soupParse html_content with
    | .error e => { content_analysis_error := some e }
    | .ok soup =>
      let forms := soup.forms.map (fun f =>
        { action := f.action.getD ""
          method := (f.method.getD "get").toLower
          inputs := f.inputs.map (fun i =>
            { type := i.type.getD "text", name := i.name.getD "" }) : FormData })
      let login := forms.any (fun f =>
        f.inputs.any (fun inp =>
          ["username", "email", "password"].contains inp.name.toLower))
      { title := some ((soup.title).getD "")
        forms := some forms
        external_links := some []
        suspicious_elements := some []
        has_login_form := some login }

/-- Does the dict carry any recorded error key? -/
def DnsWhoisData.hasErrorField (d : DnsWhoisData) : Bool :=
  d.dns_error.isSome || d.whois_error.isSome

/-- Does the dict carry any normal payload key? -/
def DnsWhoisData.hasPayloadField (d : DnsWhoisData) : Bool :=
  d.a_records.isSome || d.creation_date.isSome || d.registrar.isSome
    || d.name_servers.isSome

/-- A DNS success combined with a WHOIS failure. -/
def mixedDnsResult : DnsWhoisData :=
  dns_and_whois_lookup (fun _ => .ok ["93.184.216.34"])
    (fun _ => .error "whois timeout") (fun _ => "example.com")
    "https://example.com"

/-- C1 counterexample: a stage dict returned by `_dns_and_whois_lookup`
that carries an error field (`whois_error`) and normal payload data
(`a_records`) at the same time, contradicting the claimed exclusivity. -/
theorem c1_counterexample_payload_and_error :
    mixedDnsResult.a_records = some ["93.184.216.34"] ∧
    mixedDnsResult.whois_error = some "whois timeout" ∧
    mixedDnsResult.hasErrorField = true ∧ mixedDnsResult.hasPayloadField = true := by
  refine ⟨rfl, rfl, rfl, rfl⟩

/-- C1 (amended): error recording is per sub-operation, not per stage
dict.  In `_dns_and_whois_lookup` each sub-lookup is exclusive on its
own (`a_records` present iff `dns_error` absent; the WHOIS payload keys
present iff `whois_error` absent), so a stage dict can mix one
sub-lookup's payload with the other's error; `_http_fetch_and_redirects`
always keeps its initialized payload keys, always records at least one
of `status_code` or `http_error`, and can carry both at once (a body
read that raises after a 200 status was assigned); `_content_analysis`
alone is exclusive at the dict level (an error key is present iff the
payload keys are absent).  Every stage always returns a dict (never
neither). -/
theorem c1_amended_per_suboperation_exclusivity :
    (∀ (dnsResolve : String → Except String (List String))
       (whoisLookup : String → Except String WhoisRecord)
       (registeredDomain : String → String) (url : String),
      (dns_and_whois_lookup dnsResolve whoisLookup registeredDomain url).a_records.isSome
        = !(dns_and_whois_lookup dnsResolve whoisLookup registeredDomain url).dns_error.isSome ∧
      (dns_and_whois_lookup dnsResolve whoisLookup registeredDomain url).creation_date.isSome
        = !(dns_and_whois_lookup dnsResolve whoisLookup registeredDomain url).whois_error.isSome ∧
      (dns_and_whois_lookup dnsResolve whoisLookup registeredDomain url).registrar.isSome
        = (dns_and_whois_lookup dnsResolve whoisLookup registeredDomain url).creation_date.isSome ∧
      (dns_and_whois_lookup dnsResolve whoisLookup registeredDomain url).name_servers.isSome
        = (dns_and_whois_lookup dnsResolve whoisLookup registeredDomain url).creation_date.isSome) ∧
    (∀ (urljoin : String → String → String)
       (responses : List (Except String HttpResponse)) (url : String),
      ((http_fetch_and_redirects urljoin responses url).http_error.isSome
        || (http_fetch_and_redirects urljoin responses url).status_code.isSome)
        = true) ∧
    ((http_fetch_and_redirects wjoin
        [.ok ⟨200, none, .error "body read failed"⟩] "u").status_code
        = some 200 ∧
      (http_fetch_and_redirects wjoin
        [.ok ⟨200, none, .error "body read failed"⟩] "u").http_error
        = some "body read failed") ∧
    (∀ (soupParse : String → Except String Soup) (html : String),
      ((content_analysis soupParse html).content_error.isSome
          || (content_analysis soupParse html).content_analysis_error.isSome)
        = !(content_analysis soupParse html).title.isSome ∧
      (content_analysis soupParse html).forms.isSome
        = (content_analysis soupParse html).title.isSome ∧
      (content_analysis soupParse html).has_login_form.isSome
        = (content_analysis soupParse html).title.isSome) := by
  refine ⟨?_, ?_, ⟨rfl, rfl⟩, ?_⟩
  · intro dnsResolve whoisLookup registeredDomain url
    cases hd : dnsResolve (registeredDomain url) <;>
      cases hw : whoisLookup (registeredDomain url) <;>
        simp [dns_and_whois_lookup, hd, hw]
  · intro urljoin responses url
    match responses with
    | [] => rfl
    | .error e :: rest => rfl
    | .ok r0 :: rest =>
      cases hl : redirectLoop urljoin 5 url r0 rest [] with
      | failed chain e => simp [http_fetch_and_redirects, hl]
      | done chain finalUrl resp =>
        have hs := (http_done_proj urljoin url r0 rest chain finalUrl resp hl).2.2.1
        simp [hs]
  · intro soupParse html
    by_cases hh : html = ""
    · simp [content_analysis, hh]
    · cases hs : soupParse html <;> simp [content_analysis, hh, hs]

/-! ### URL parsing model, feature extraction, normalization, punycode -/

/-- Characters of a list up to (excluding) the first stop character. -/
def takeUntil (stops : List Char) : List Char → List Char
  | [] => []
  | c :: cs => if c ∈ stops then [] else c :: takeUntil stops cs

/-- The rest of a list from the first stop character on. -/
def dropUntil (stops : List Char) : List Char → List Char
  | [] => []
  | c :: cs => if c ∈ stops then c :: cs else dropUntil stops cs

/-- Split at the first occurrence of "://" into (scheme, remainder). -/
def splitScheme : List Char → Option (List Char × List Char)
  | [] => none
  | c :: cs =>
    if startsWithChars [':', '/', '/'] (c :: cs) then some ([], (c :: cs).drop 3)
    else match splitScheme cs with
      | some (s, r) => some (c :: s, r)
      | none => none

/-- Path and query from the part after the netloc: the path runs to the
first of `?` or `#`, the query from `?` to `#`. -/
def splitPathQuery (cs : List Char) : String × String :=
  let path := takeUntil ['?', '#'] cs
  match dropUntil ['?', '#'] cs with
  | '?' :: qs => (⟨path⟩, ⟨takeUntil ['#'] qs⟩)
  | _ => (⟨path⟩, "")

/-- The result object of `urllib.parse.urlparse`. -/
structure ParsedUrl where
  scheme : String
  netloc : String
  path : String
  query : String
deriving Repr, DecidableEq

/-- CPython's unbalanced-bracket check on the netloc, which makes
`urlsplit` raise `ValueError("Invalid IPv6 URL")`. -/
def bracketMismatch (netloc : List Char) : Bool :=
  (netloc.contains '[' && !(netloc.contains ']'))
    || (netloc.contains ']' && !(netloc.contains '['))

/-- Model of `urllib.parse.urlparse` for the URL shapes the pipeline
produces: a `scheme://netloc[path][?query]` input splits into its four
components, an input without "://" has empty scheme/netloc and the
remainder as path/query (as in CPython for plain relative references),
and an unbalanced `[`/`]` in the netloc raises `ValueError`. -/
def urlparse (url : String) : Except String ParsedUrl :=
  match splitScheme url.data with
  | none =>
    let pq := splitPathQuery url.data
    .ok { scheme := "", netloc := "", path := pq.1, query := pq.2 }
  | some (sch, rest) =>
    let netlocChars := takeUntil ['/', '?', '#'] rest
    if bracketMismatch netlocChars then .error "Invalid IPv6 URL"
    else
      let pq := splitPathQuery (dropUntil ['/', '?', '#'] rest)
      .ok { scheme := ⟨sch⟩, netloc := ⟨netlocChars⟩, path := pq.1, query := pq.2 }

/-- Python `str.isdigit` on a character list (False on the empty
string; ASCII digits — the Unicode-digit cases do not arise here). -/
def pyIsdigit (cs : List Char) : Bool :=
  !cs.isEmpty && cs.all Char.isDigit

/-- Exactly `k` leading digits, returning the remainder. -/
def matchDigits : Nat → List Char → Option (List Char)
  | 0, cs => some cs
  | _ + 1, [] => none
  | k + 1, c :: cs => if c.isDigit then matchDigits k cs else none

/-- Run lengths admitted by the regex piece `[0-9]{1,3}`. -/
def ks13 : List Nat := [1, 2, 3]

/-- Does `[0-9]{1,3}(\.[0-9]{1,3}){3}` match at this position
(with backtracking, i.e. some choice of run lengths succeeds)? -/
def matchDotQuad (cs : List Char) : Bool :=
  ks13.any fun k1 =>
    match matchDigits k1 cs with
    | none => false
    | some r1 =>
      match r1 with
      | '.' :: r1b =>
        ks13.any fun k2 =>
          match matchDigits k2 r1b with
          | none => false
          | some r2 =>
            match r2 with
            | '.' :: r2b =>
              ks13.any fun k3 =>
                match matchDigits k3 r2b with
                | none => false
                | some r3 =>
                  match r3 with
                  | '.' :: r3b => ks13.any fun k4 => (matchDigits k4 r3b).isSome
                  | _ => false
            | _ => false
      | _ => false

/-- `re.search` of the embedded-IPv4 pattern: a match at any position. -/
def searchDotQuad : List Char → Bool
  | [] => matchDotQuad []
  | c :: cs => matchDotQuad (c :: cs) || searchDotQuad cs

/-- `MLClassifier.extract_url_features` (lines 62-107).  The feature
list is built inside one try block whose only raising operation is
`urllib.parse.urlparse`; on an exception the except branch discards the
partial list and returns `[0] * 15`. -/
def extract_url_features (url : String) (a : AnalysisRecord) : List ℚ :=
  match urlparse url with
  | .error _ => List.replicate 15 0
  | .ok parsed =>
    [ (url.length : ℚ),
      (parsed.netloc.length : ℚ),
      (parsed.path.length : ℚ),
      (parsed.query.length : ℚ),
      (url.data.count '.' : ℚ),
      (url.data.count '-' : ℚ),
      (url.data.count '_' : ℚ),
      (url.data.count '/' : ℚ),
      (if pyIsdigit (parsed.netloc.data.filter (fun c => c ≠ '.')) then 1 else 0),
      (if 4 < (parsed.netloc.split (fun c => c = '.')).length then 1 else 0),
      (if containsSub url "bit.ly" || containsSub url "tinyurl"
          || containsSub url "short" then 1 else 0),
      (if searchDotQuad url.data then 1 else 0),
      (match a.steps.dns_whois.domain_age_days with
        | some v => if v = 0 then (365 : ℚ) else v
        | none => 365),
      (a.steps.http_analysis.redirect_chain.length : ℚ),
      (if a.steps.content_analysis.has_login_form.getD false then 1 else 0) ]

/-- The `(subdomain, domain, suffix)` triple of the `tldextract` oracle. -/
structure TldParts where
  subdomain : String
  domain : String
  suffix : String
deriving Repr, DecidableEq

/-- `URLAnalyzer._is_ip_address`: `socket.inet_aton` in a try/except;
the platform parser is the Bool oracle (True iff the call does not
raise). -/
def is_ip_address (inetAtonOk : String → Bool) (hostname : String) : Bool :=
  inetAtonOk hostname

/-- All code points below 128, i.e. Python `str.encode('ascii')`
succeeds. -/
def isAsciiStr (s : String) : Bool := s.data.all fun c => c.toNat < 128

/-- `URLAnalyzer._has_punycode`: IDNA-decode the ASCII-encoded hostname
and compare; any exception (non-ASCII hostname, or the idna library
raising) yields False.  Total by construction: every oracle outcome
maps to a Bool. -/
def has_punycode (idnaDecode : String → Except String String)
    (hostname : String) : Bool :=
  if isAsciiStr hostname then
    match idnaDecode hostname with
    | .ok decoded => decoded != hostname
    | .error _ => false
  else false

/-- The whitespace set of Python `str.strip()` (ASCII part). -/
def isPySpace (c : Char) : Bool :=
  c == ' ' || c == '\t' || c == '\n' || c == '\r' || c == '\x0b' || c == '\x0c'

/-- Python `url.strip()`. -/
def pyStrip (s : String) : String :=
  ⟨((s.data.dropWhile isPySpace).reverse.dropWhile isPySpace).reverse⟩

/-- The URL after `url.strip()` and the scheme-prepending step of
`_normalize_and_check_url` (lines 92-95). -/
def preparedUrl (url0 : String) : String :=
  let url1 := pyStrip url0
  if startsWithChars "http://".data url1.data
      || startsWithChars "https://".data url1.data then url1
  else "https://" ++ url1

/-- `URLAnalyzer._normalize_and_check_url`: strip, prepend scheme,
parse, then build the features dict.  The method body contains no
try/except, so a `urlparse` error propagates (modelled as
`Except.error`); `tldex` is the `tldextract.extract` oracle. -/
def normalize_and_check_url
    (tldex : String → TldParts)
    (inetAtonOk : String → Bool)
    (idnaDecode : String → Except String String)
    (url0 : String) : Except String (String × NormFeatures) :=
  let url := preparedUrl url0
  match urlparse url with
  | .error e => .error e
  | .ok parsed =>
    let ex := tldex parsed.netloc
    .ok (url,
      { original_url := url
        domain := ex.domain
        subdomain := ex.subdomain
        suffix := ex.suffix
        is_ip := is_ip_address inetAtonOk parsed.netloc
        has_punycode := has_punycode idnaDecode parsed.netloc
        url_length := url.length
        path_length := parsed.path.length
        query_length := parsed.query.length })

/-! ### Oracle fixtures used by witnesses -/

def wTldex : String → TldParts := fun n => ⟨"", n, ""⟩

def wInet : String → Bool := fun _ => false

def wIdnaId : String → Except String String := fun s => .ok s

def wIdnaErr : String → Except String String := fun _ => .error "IDNA error"

/-- C8: `extract_url_features` always yields exactly 15 numeric
features, and whenever the extraction (its only raising step, the URL
parse) fails it degrades to the all-zero 15-vector instead of
propagating the exception. -/
theorem c8_feature_vector_shape (url : String) (a : AnalysisRecord) :
    (extract_url_features url a).length = 15 ∧
    (∀ e, urlparse url = .error e →
      extract_url_features url a = List.replicate 15 0) := by
  constructor
  · cases h : urlparse url <;> simp [extract_url_features, h]
  · intro e he
    simp [extract_url_features, he]

theorem c8_feature_vector_shape_witness :
    extract_url_features "https://[bad" sampleRecord0 = List.replicate 15 0 ∧
    (extract_url_features "https://login.example.com/signin" sampleRecord0).length
      = 15 :=
  ⟨(c8_feature_vector_shape "https://[bad" sampleRecord0).2 "Invalid IPv6 URL" rfl,
   (c8_feature_vector_shape "https://login.example.com/signin" sampleRecord0).1⟩

/-- C9 counterexample: the normalizer is not total.  On the input
"https://[foo" the underlying URL parse raises
ValueError("Invalid IPv6 URL") and `_normalize_and_check_url`, which
contains no exception handler, propagates it instead of returning
zero/empty defaults. -/
theorem c9_counterexample_parse_error_propagates :
    normalize_and_check_url wTldex wInet wIdnaId "https://[foo"
      = .error "Invalid IPv6 URL" := rfl

/-- C9 (amended): the normalizer trims whitespace, prepends `https://`
when no scheme prefix is present, and returns the features record
whenever the URL parse succeeds; but it has no error handling of its
own — a parse error propagates unchanged (aborting the stage) rather
than producing zero/empty defaults. -/
theorem c9_normalizer_behavior (tldex : String → TldParts)
    (inetAtonOk : String → Bool) (idnaDecode : String → Except String String)
    (url0 : String) :
    (∀ e, urlparse (preparedUrl url0) = .error e →
      normalize_and_check_url tldex inetAtonOk idnaDecode url0 = .error e) ∧
    (∀ p, urlparse (preparedUrl url0) = .ok p →
      normalize_and_check_url tldex inetAtonOk idnaDecode url0
        = .ok (preparedUrl url0,
            { original_url := preparedUrl url0
              domain := (tldex p.netloc).domain
              subdomain := (tldex p.netloc).subdomain
              suffix := (tldex p.netloc).suffix
              is_ip := is_ip_address inetAtonOk p.netloc
              has_punycode := has_punycode idnaDecode p.netloc
              url_length := (preparedUrl url0).length
              path_length := p.path.length
              query_length := p.query.length })) := by
  constructor
  · intro e he
    simp [normalize_and_check_url, he]
  · intro p hp
    simp [normalize_and_check_url, hp]

theorem c9_normalizer_behavior_witness :
    normalize_and_check_url wTldex wInet wIdnaId "example.com"
      = .ok ("https://example.com",
          { original_url := "https://example.com", domain := "example.com",
            subdomain := "", suffix := "", is_ip := false, has_punycode := false,
            url_length := 19, path_length := 0, query_length := 0 }) :=
  (c9_normalizer_behavior wTldex wInet wIdnaId "example.com").2
    ⟨"https", "example.com", "", ""⟩ rfl

/-- C10: `_has_punycode` is total and conservatively false — every
oracle outcome maps to a Bool (the try/except catches everything), a
non-ASCII hostname is never flagged (the `.encode('ascii')` step raises
first), an IDNA decoding failure yields false, and a true result occurs
only when IDNA-decoding an ASCII hostname produced a different
string. -/
theorem c10_has_punycode_total_conservative
    (idnaDecode : String → Except String String) (hostname : String) :
    (isAsciiStr hostname = false → has_punycode idnaDecode hostname = false) ∧
    (∀ e, idnaDecode hostname = .error e →
      has_punycode idnaDecode hostname = false) ∧
    (has_punycode idnaDecode hostname = true →
      isAsciiStr hostname = true ∧
      ∃ d, idnaDecode hostname = .ok d ∧ d ≠ hostname) := by
  refine ⟨?_, ?_, ?_⟩
  · intro h
    simp [has_punycode, h]
  · intro e he
    by_cases ha : isAsciiStr hostname <;> simp [has_punycode, ha, he]
  · intro ht
    by_cases ha : isAsciiStr hostname
    · refine ⟨ha, ?_⟩
      cases hd : idnaDecode hostname with
      | ok d =>
        simp only [has_punycode, ha, if_true, hd] at ht
        exact ⟨d, rfl, by simpa using ht⟩
      | error e => simp [has_punycode, ha, hd] at ht
    · simp [has_punycode, ha] at ht

theorem c10_has_punycode_witness :
    has_punycode wIdnaId "bücher.de" = false ∧
    has_punycode wIdnaErr "example.com" = false :=
  ⟨(c10_has_punycode_total_conservative wIdnaId "bücher.de").1 (by decide),
   (c10_has_punycode_total_conservative wIdnaErr "example.com").2.1 "IDNA error" rfl⟩
